import Mathlib

/-!
Shallow embedding of `src/vps_monitor.py`, a fleet-health reconciler that
probes each configured host over SSH, restarts a watched script when it is
absent, and records the outcome per host in the shared `vps_status` mapping.

External effects are modelled as oracles passed in explicitly:
`connectOk i` tells whether the `i`-th `client.connect` call succeeds
(an exception in the source is `connectOk i = false`), and
`remote cmd` is the decoded, not-yet-stripped stdout of
`client.exec_command cmd` (`Except.ok`) or the `str(e)` of the exception the
command attempt raised, with read/decode failures folded into `Except.error`.
`time.strftime` is passed in as the opaque string `now`.
-/

namespace VpsMonitor

/-- Python truthiness of an `os.environ.get` result: `None` and the empty
string are falsy. -/
def truthy : Option String → Bool
  | none => false
  | some s => !s.data.isEmpty

/-- The process environment the monitor reads its configuration from:
the values of `HOSTNAME_i`, `USERNAME_i`, `PASSWORD_i`, `SCRIPT_PATH_i`. -/
structure Env where
  hostname : Nat → Option String
  username : Nat → Option String
  password : Nat → Option String
  scriptPath : Nat → Option String

/-- One entry of the configuration list built by `get_vps_configs`
(source lines 34-40); `os.environ.get` may return `None` for any field
other than the hostname, which is checked for truthiness first. -/
structure Config where
  index : Nat
  hostname : String
  username : Option String
  password : Option String
  script_path : Option String
deriving DecidableEq

/-- The loop body of `get_vps_configs` (source lines 29-45), reading entries
at consecutive indices from `start`; the source loop runs unboundedly, so a
`fuel` bound (any number at least the count of configured hosts) makes the
embedding total. -/
def get_vps_configs_from (env : Env) : Nat → Nat → List Config
  | _, 0 => []
  | start, fuel + 1 =>
    match env.hostname start with
    | none => []
    | some hn =>
      if hn.data.isEmpty then []
      else
        { index := start, hostname := hn, username := env.username start,
          password := env.password start, script_path := env.scriptPath start }
          :: get_vps_configs_from env (start + 1) fuel

/-- `get_vps_configs` (source lines 26-46): discovery starts at suffix 1. -/
def get_vps_configs (env : Env) (fuel : Nat) : List Config :=
  get_vps_configs_from env 1 fuel

/-- The retry loop of `establish_ssh_connection` (source lines 52-67):
`made` counts the `client.connect` calls already made, `remaining` the
attempts still allowed.  On success the session is represented by the
0-based attempt index it was opened on.  Returns the optional session and
the total number of `connect` calls made. -/
def establishGo (connectOk : Nat → Bool) : Nat → Nat → Option Nat × Nat
  | made, 0 => (none, made)
  | made, remaining + 1 =>
    if connectOk made then (some made, made + 1)
    else establishGo connectOk (made + 1) remaining

/-- `establish_ssh_connection` (source lines 48-69): up to `retries` attempts
(default 3); every exception is caught inside the loop and, after the budget
is exhausted, `None` is returned rather than any exception propagating. -/
def establish_ssh_connection (connectOk : Nat → Bool) (retries : Nat := 3) :
    Option Nat × Nat :=
  establishGo connectOk 0 retries

/-- The character list `s` begins with the character list `pat`. -/
def charsStartWith : List Char → List Char → Bool
  | [], _ => true
  | _ :: _, [] => false
  | p :: ps, c :: cs => p == c && charsStartWith ps cs

/-- `pat` occurs as a contiguous run inside the character list. -/
def charsContain (pat : List Char) : List Char → Bool
  | [] => pat.isEmpty
  | c :: cs => charsStartWith pat (c :: cs) || charsContain pat cs

/-- Python's `pat in s` on strings: contiguous-substring membership
(source line 92, `script_path in output`). -/
def pyIn (pat s : String) : Bool := charsContain pat.toList s.toList

/-- The characters of the current path segment (`seg`, reversed) updated by
the remaining characters: a slash starts a new segment. -/
def lastSegment : List Char → List Char → List Char
  | seg, [] => seg.reverse
  | seg, c :: cs => if c = '/' then lastSegment [] cs else lastSegment (c :: seg) cs

/-- `os.path.basename` for the POSIX paths the source handles: the part of
the path after its last slash (source line 86). -/
def basename (p : String) : String := ⟨lastSegment [] p.data⟩

/-- A character Python's `str.strip` removes: ASCII whitespace
(space, tab, newline, carriage return, vertical tab, form feed). -/
def pySpace (c : Char) : Bool :=
  c == ' ' || c == '\t' || c == '\n' || c == '\r' ||
    c == Char.ofNat 11 || c == Char.ofNat 12

/-- Drop leading whitespace characters. -/
def dropSpaces : List Char → List Char
  | [] => []
  | c :: cs => if pySpace c then dropSpaces cs else c :: cs

/-- Python's `str.strip()` (source line 90): whitespace removed from both
ends. -/
def pyStrip (s : String) : String :=
  ⟨(dropSpaces (dropSpaces s.data).reverse).reverse⟩

/-- The probe command of source line 88: list process command lines, filter
for the script's base name, drop the grep entries themselves. -/
def check_command (script_path : String) : String :=
  "ps -eo args | grep " ++ basename script_path ++ " | grep -v grep"

/-- The restart command of source line 97: detached, backgrounded, both
output streams discarded. -/
def restart_command (script_path : String) : String :=
  "nohup /bin/sh " ++ script_path ++ " > /dev/null 2>&1 &"

/-- `str(e)` of the `TypeError` CPython raises from `os.path.basename(None)`
when `SCRIPT_PATH_i` is unset, which source line 86 triggers inside the
`try` block. -/
def basenameNoneDetail : String :=
  "expected str, bytes or os.PathLike object, not NoneType"

/-- The per-host record written into `vps_status`
(source lines 76-81, 102-107 and 111-116). -/
structure StatusRecord where
  index : Nat
  status : String
  last_check : String
  username : Option String
deriving DecidableEq

/-- Everything one `check_and_run_script` call did: the record it wrote into
`vps_status`, the remote commands it issued in order, the number of
`connect` calls made, and whether an SSH session was opened and closed. -/
structure HostResult where
  record : StatusRecord
  commands : List String
  attempts : Nat
  opened : Bool
  closed : Bool
deriving DecidableEq

/-- The `try` body of `check_and_run_script` (source lines 84-101) together
with its `except` clause (lines 109-116), run over an open session: yields
the status string written and the remote commands issued, in order.
A `None` script path raises inside the `try` at `os.path.basename` and is
caught like any other failure. -/
def probe_session (remote : String → Except String String) :
    Option String → String × List String
  | none => ("Error: " ++ basenameNoneDetail, [])
  | some sp =>
    match remote (check_command sp) with
    | .error e => ("Error: " ++ e, [check_command sp])
    | .ok raw =>
      let output := pyStrip raw
      if !output.data.isEmpty && pyIn sp output then
        ("Running", [check_command sp])
      else
        match remote (restart_command sp) with
        | .error e => ("Error: " ++ e, [check_command sp, restart_command sp])
        | .ok _ => ("Restarted", [check_command sp, restart_command sp])

/-- `check_and_run_script` (source lines 71-118) for one host.  When no
session could be established only the ConnectionFailed record is written
(lines 75-82); otherwise the probe runs and the `finally` of line 117
closes the session on every exit path. -/
def check_and_run_script (now : String) (connectOk : Nat → Bool)
    (remote : String → Except String String) (config : Config) : HostResult :=
  match establish_ssh_connection connectOk 3 with
  | (none, made) =>
    { record := { index := config.index, status := "Connection Failed",
                  last_check := now, username := config.username },
      commands := [], attempts := made, opened := false, closed := false }
  | (some _, made) =>
    let pr := probe_session remote config.script_path
    { record := { index := config.index, status := pr.1,
                  last_check := now, username := config.username },
      commands := pr.2, attempts := made, opened := true, closed := true }

/-- The `vps_status` dict (source line 12), as its ordered key/value pairs. -/
abbrev Store := List (String × StatusRecord)

/-- `vps_status[hostname] = record` on a Python dict: replace the value in
place when the key is present, append the pair otherwise. -/
def storeWrite : Store → String → StatusRecord → Store
  | [], h, r => [(h, r)]
  | (k, v) :: rest, h, r =>
    if k = h then (k, r) :: rest else (k, v) :: storeWrite rest h r

/-- Key lookup in the `vps_status` dict. -/
def lookupStore : Store → String → Option StatusRecord
  | [], _ => none
  | (k, v) :: rest, h => if k = h then some v else lookupStore rest h

/-- `check_all_vps` (source lines 120-124): probe every configured host in
order, each one writing its record into the store; also returns the per-host
results in configuration order. -/
def check_all_vps (now : String) (connectOk : String → Nat → Bool)
    (remote : String → String → Except String String) :
    List Config → Store → Store × List HostResult
  | [], store => (store, [])
  | c :: rest, store =>
    let res := check_and_run_script now (connectOk c.hostname) (remote c.hostname) c
    let next := check_all_vps now connectOk remote rest
      (storeWrite store c.hostname res.record)
    (next.1, res :: next.2)

/-- State of the `while` loop of `main` (source lines 209-216) together with
the `schedule` library's single pending job: `time` is seconds since the loop
started, `heartbeat_count` the source's counter, and `next_run` the absolute
time at which the hourly `check_all_vps` job is next due
(`schedule.every(1).hours.do(check_all_vps)`, source line 204, makes it due
one hour after registration and one hour after each firing). -/
structure LoopState where
  time : Nat
  heartbeat_count : Nat
  next_run : Nat
deriving DecidableEq

/-- The loop state right after the synchronous startup `check_all_vps()` of
source line 201 and the job registration of line 204. -/
def loopInit : LoopState := { time := 0, heartbeat_count := 0, next_run := 3600 }

/-- One iteration of the `while` loop (source lines 211-216):
`schedule.run_pending()` fires the job when it is due, then `time.sleep(60)`
advances time one tick, the heartbeat counter increments, and a heartbeat is
logged when the counter is a multiple of 5.  Returns the new state, whether
a scheduled pass fired, and whether a heartbeat was logged. -/
def loopStep (s : LoopState) : LoopState × Bool × Bool :=
  let fired := decide (s.next_run ≤ s.time)
  let nr := if fired then s.time + 3600 else s.next_run
  let hb := s.heartbeat_count + 1
  ({ time := s.time + 60, heartbeat_count := hb, next_run := nr }, fired, hb % 5 == 0)

/-- The loop state after `n` completed iterations. -/
def loopRun : Nat → LoopState
  | 0 => loopInit
  | n + 1 => (loopStep (loopRun n)).1

/-- Whether a scheduled pass fires in the loop iteration that follows `k`
completed iterations (i.e. at the tick boundary `k` minutes in). -/
def passFiredAfter (k : Nat) : Bool := (loopStep (loopRun k)).2.1

/-- Whether a heartbeat is logged in the loop iteration that follows `k`
completed iterations (that iteration is the `(k+1)`-th tick). -/
def heartbeatAfter (k : Nat) : Bool := (loopStep (loopRun k)).2.2

/-- The observable reconciliation events of `main` (source lines 200-216). -/
inductive MainEvent where
  | fullPass
  | heartbeat
deriving DecidableEq

/-- The events of one loop iteration, pass first (run_pending happens before
the sleep and the heartbeat log). -/
def tickEvents (k : Nat) : List MainEvent :=
  (if passFiredAfter k then [MainEvent.fullPass] else [])
    ++ (if heartbeatAfter k then [MainEvent.heartbeat] else [])

/-- The event trace of `main` after `n` loop iterations: the synchronous
startup pass of source line 201, then each iteration's events. -/
def main_events : Nat → List MainEvent
  | 0 => [MainEvent.fullPass]
  | n + 1 => main_events n ++ tickEvents n


/-- The configuration entry that discovery builds at suffix `i` when the
hostname variable there is truthy. -/
def entryAt (env : Env) (i : Nat) : Config :=
  { index := i, hostname := (env.hostname i).getD "", username := env.username i,
    password := env.password i, script_path := env.scriptPath i }

/-- A two-host environment: suffixes 1 and 2 configured, 3 absent. -/
def envTwoHosts : Env :=
  { hostname := fun i => if i = 1 then some "a.example.com" else
      if i = 2 then some "b.example.com" else none,
    username := fun _ => some "root", password := fun _ => some "pw",
    scriptPath := fun _ => some "/opt/app/run.sh" }

/- ### Lemmas about the connection retry loop -/

theorem establishGo_all_fail (connectOk : Nat → Bool) :
    ∀ remaining made, (∀ i, i < remaining → connectOk (made + i) = false) →
      establishGo connectOk made remaining = (none, made + remaining) := by
  intro remaining
  induction remaining with
  | zero => intro made _; simp [establishGo]
  | succ r ih =>
    intro made hf
    have h0 : connectOk made = false := by simpa using hf 0 (Nat.succ_pos r)
    have hrec := ih (made + 1) (fun i hi => by
      have := hf (i + 1) (by omega)
      simpa [Nat.add_assoc, Nat.add_comm 1 i] using this)
    simp only [establishGo, h0, Bool.false_eq_true, if_false, hrec]
    have : made + 1 + r = made + (r + 1) := by omega
    rw [this]

/-- After the retry budget is exhausted with every attempt failing,
`establish_ssh_connection` returns `None` having made exactly 3 attempts. -/
theorem establish_all_fail (connectOk : Nat → Bool)
    (hf : ∀ i, i < 3 → connectOk i = false) :
    establish_ssh_connection connectOk 3 = (none, 3) := by
  have := establishGo_all_fail connectOk 3 0 (by simpa using hf)
  simpa [establish_ssh_connection] using this

theorem establishGo_succeeds (connectOk : Nat → Bool) :
    ∀ remaining made, (∃ i, i < remaining ∧ connectOk (made + i) = true) →
      ∃ j m, establishGo connectOk made remaining = (some j, m) := by
  intro remaining
  induction remaining with
  | zero => rintro made ⟨i, hi, _⟩; omega
  | succ r ih =>
    rintro made ⟨i, hi, hc⟩
    cases h0 : connectOk made with
    | true => exact ⟨made, made + 1, by simp [establishGo, h0]⟩
    | false =>
      have hi0 : i ≠ 0 := by
        rintro rfl
        rw [Nat.add_zero] at hc
        rw [h0] at hc
        exact Bool.false_ne_true hc
      obtain ⟨i', rfl⟩ : ∃ i', i = i' + 1 := ⟨i - 1, by omega⟩
      obtain ⟨j, m, hjm⟩ := ih (made + 1)
        ⟨i', by omega, by have h2 : made + 1 + i' = made + (i' + 1) := by omega
                          rw [h2]; exact hc⟩
      exact ⟨j, m, by simp [establishGo, h0, hjm]⟩

/-- A connection attempt that succeeds within the budget yields a session. -/
theorem establish_succeeds (connectOk : Nat → Bool)
    (hconn : ∃ i, i < 3 ∧ connectOk i = true) :
    ∃ j m, establish_ssh_connection connectOk 3 = (some j, m) := by
  have := establishGo_succeeds connectOk 3 0 (by simpa using hconn)
  simpa [establish_ssh_connection] using this

/- ### Lemmas unfolding one host's probe -/

theorem check_and_run_script_conn_failed (now : String) (connectOk : Nat → Bool)
    (remote : String → Except String String) (config : Config)
    (hf : ∀ i, i < 3 → connectOk i = false) :
    check_and_run_script now connectOk remote config =
      { record := { index := config.index, status := "Connection Failed",
                    last_check := now, username := config.username },
        commands := [], attempts := 3, opened := false, closed := false } := by
  simp [check_and_run_script, establish_all_fail connectOk hf]

theorem check_and_run_script_opened (now : String) (connectOk : Nat → Bool)
    (remote : String → Except String String) (config : Config) {j m : Nat}
    (hest : establish_ssh_connection connectOk 3 = (some j, m)) :
    check_and_run_script now connectOk remote config =
      { record := { index := config.index,
                    status := (probe_session remote config.script_path).1,
                    last_check := now, username := config.username },
        commands := (probe_session remote config.script_path).2,
        attempts := m, opened := true, closed := true } := by
  simp [check_and_run_script, hest]

theorem probe_session_running (remote : String → Except String String)
    (sp raw : String)
    (hout : remote (check_command sp) = .ok raw)
    (hne : (pyStrip raw).data.isEmpty = false)
    (hmem : pyIn sp (pyStrip raw) = true) :
    probe_session remote (some sp) = ("Running", [check_command sp]) := by
  simp [probe_session, hout, hne, hmem]

theorem probe_session_restart (remote : String → Except String String)
    (sp raw u : String)
    (hout : remote (check_command sp) = .ok raw)
    (habsent : (pyStrip raw).data.isEmpty = true ∨ pyIn sp (pyStrip raw) = false)
    (hrestart : remote (restart_command sp) = .ok u) :
    probe_session remote (some sp) =
      ("Restarted", [check_command sp, restart_command sp]) := by
  have hcond : (!(pyStrip raw).data.isEmpty && pyIn sp (pyStrip raw)) = false := by
    rcases habsent with h | h <;> simp [h]
  simp [probe_session, hout, hcond, hrestart]

theorem probe_session_check_error (remote : String → Except String String)
    (sp e : String) (hout : remote (check_command sp) = .error e) :
    probe_session remote (some sp) = ("Error: " ++ e, [check_command sp]) := by
  simp [probe_session, hout]

theorem probe_session_restart_error (remote : String → Except String String)
    (sp raw e : String)
    (hout : remote (check_command sp) = .ok raw)
    (habsent : (pyStrip raw).data.isEmpty = true ∨ pyIn sp (pyStrip raw) = false)
    (hrestart : remote (restart_command sp) = .error e) :
    probe_session remote (some sp) =
      ("Error: " ++ e, [check_command sp, restart_command sp]) := by
  have hcond : (!(pyStrip raw).data.isEmpty && pyIn sp (pyStrip raw)) = false := by
    rcases habsent with h | h <;> simp [h]
  simp [probe_session, hout, hcond, hrestart]

/-- The probe and restart command texts differ (they start with different
characters), so each occurs exactly once in the issued command list. -/
theorem check_command_ne_restart_command (sp : String) :
    check_command sp ≠ restart_command sp := by
  intro h
  have hd := congrArg (fun s => s.data.head?) h
  simp [check_command, restart_command, String.data_append] at hd



/- ### Claim theorems: per-host probe behavior -/

/-- C1: for a host whose session is established and whose full configured
script path occurs as a substring (`pyIn`, Python's `in`) of the non-empty
stripped output of the probe command — the command whose text already
excludes the probe's own grep entries — the verdict is `Running` and the
only remote command issued is the probe command itself: no restart command
is issued. -/
theorem running_no_restart (now : String) (connectOk : Nat → Bool)
    (remote : String → Except String String) (config : Config) (sp raw : String)
    (hconn : ∃ i, i < 3 ∧ connectOk i = true)
    (hsp : config.script_path = some sp)
    (hout : remote (check_command sp) = .ok raw)
    (hne : (pyStrip raw).data.isEmpty = false)
    (hmem : pyIn sp (pyStrip raw) = true) :
    (check_and_run_script now connectOk remote config).record.status = "Running" ∧
    (check_and_run_script now connectOk remote config).commands = [check_command sp] := by
  obtain ⟨j, m, hest⟩ := establish_succeeds connectOk hconn
  rw [check_and_run_script_opened now connectOk remote config hest, hsp,
      probe_session_running remote sp raw hout hne hmem]
  exact ⟨rfl, rfl⟩

/-- C1 witness: host `a.example.com` with script `/opt/app/run.sh` and
process listing `/opt/app/run.sh --flag` yields `Running` without restart. -/
theorem running_no_restart_witness :
    (check_and_run_script "2026-10-12 00:00:00" (fun _ => true)
        (fun _ => .ok "/opt/app/run.sh --flag")
        { index := 1, hostname := "a.example.com", username := some "root",
          password := some "pw", script_path := some "/opt/app/run.sh" }).record.status
      = "Running" ∧
    (check_and_run_script "2026-10-12 00:00:00" (fun _ => true)
        (fun _ => .ok "/opt/app/run.sh --flag")
        { index := 1, hostname := "a.example.com", username := some "root",
          password := some "pw", script_path := some "/opt/app/run.sh" }).commands
      = [check_command "/opt/app/run.sh"] :=
  running_no_restart "2026-10-12 00:00:00" (fun _ => true)
    (fun _ => .ok "/opt/app/run.sh --flag")
    { index := 1, hostname := "a.example.com", username := some "root",
      password := some "pw", script_path := some "/opt/app/run.sh" }
    "/opt/app/run.sh" "/opt/app/run.sh --flag"
    ⟨0, by omega, rfl⟩ rfl rfl (by rfl) (by rfl)

/-- C2: for a host whose session is established and whose script path is
absent from the stripped probe output (empty output or no substring match),
exactly one restart command is issued, its text is exactly
`nohup /bin/sh {scriptPath} > /dev/null 2>&1 &`, and the verdict is
`Restarted` without any re-verification command being issued after it. -/
theorem restart_issued (now : String) (connectOk : Nat → Bool)
    (remote : String → Except String String) (config : Config) (sp raw u : String)
    (hconn : ∃ i, i < 3 ∧ connectOk i = true)
    (hsp : config.script_path = some sp)
    (hout : remote (check_command sp) = .ok raw)
    (habsent : (pyStrip raw).data.isEmpty = true ∨ pyIn sp (pyStrip raw) = false)
    (hrestart : remote (restart_command sp) = .ok u) :
    (check_and_run_script now connectOk remote config).record.status = "Restarted" ∧
    (check_and_run_script now connectOk remote config).commands =
      [check_command sp, "nohup /bin/sh " ++ sp ++ " > /dev/null 2>&1 &"] ∧
    (check_and_run_script now connectOk remote config).commands.count
      ("nohup /bin/sh " ++ sp ++ " > /dev/null 2>&1 &") = 1 := by
  obtain ⟨j, m, hest⟩ := establish_succeeds connectOk hconn
  rw [check_and_run_script_opened now connectOk remote config hest, hsp,
      probe_session_restart remote sp raw u hout habsent hrestart]
  have hne : check_command sp ≠ restart_command sp :=
    check_command_ne_restart_command sp
  refine ⟨rfl, rfl, ?_⟩
  show List.count (restart_command sp) [check_command sp, restart_command sp] = 1
  simp [List.count_cons, hne, Ne.symm hne]

/-- C2 witness: host `a.example.com`, empty process listing: the probe issues
`nohup /bin/sh /opt/app/run.sh > /dev/null 2>&1 &` once and returns
`Restarted`. -/
theorem restart_issued_witness :
    (check_and_run_script "2026-10-12 00:00:00" (fun _ => true) (fun _ => .ok "")
        { index := 1, hostname := "a.example.com", username := some "root",
          password := some "pw", script_path := some "/opt/app/run.sh" }).record.status
      = "Restarted" ∧
    (check_and_run_script "2026-10-12 00:00:00" (fun _ => true) (fun _ => .ok "")
        { index := 1, hostname := "a.example.com", username := some "root",
          password := some "pw", script_path := some "/opt/app/run.sh" }).commands
      = [check_command "/opt/app/run.sh",
         "nohup /bin/sh " ++ "/opt/app/run.sh" ++ " > /dev/null 2>&1 &"] ∧
    (check_and_run_script "2026-10-12 00:00:00" (fun _ => true) (fun _ => .ok "")
        { index := 1, hostname := "a.example.com", username := some "root",
          password := some "pw", script_path := some "/opt/app/run.sh" }).commands.count
      ("nohup /bin/sh " ++ "/opt/app/run.sh" ++ " > /dev/null 2>&1 &") = 1 :=
  restart_issued "2026-10-12 00:00:00" (fun _ => true) (fun _ => .ok "")
    { index := 1, hostname := "a.example.com", username := some "root",
      password := some "pw", script_path := some "/opt/app/run.sh" }
    "/opt/app/run.sh" "" ""
    ⟨0, by omega, rfl⟩ rfl rfl (Or.inl (by rfl)) rfl

/-- C3: for a host on which every connection attempt fails, exactly the
configured retry budget of 3 `connect` calls is made,
`establish_ssh_connection` returns `None` instead of letting any exception
escape its boundary, and the record written for the host carries the
ConnectionFailed status (the source's status string "Connection Failed",
one of its four status values). -/
theorem connection_failed_budget (now : String) (connectOk : Nat → Bool)
    (remote : String → Except String String) (config : Config)
    (hf : ∀ i, i < 3 → connectOk i = false) :
    (check_and_run_script now connectOk remote config).attempts = 3 ∧
    establish_ssh_connection connectOk 3 = (none, 3) ∧
    (check_and_run_script now connectOk remote config).record.status
      = "Connection Failed" := by
  rw [check_and_run_script_conn_failed now connectOk remote config hf]
  exact ⟨rfl, establish_all_fail connectOk hf, rfl⟩

/-- C3 witness: an unreachable host is retried exactly 3 times and recorded
as connection-failed. -/
theorem connection_failed_budget_witness :
    (check_and_run_script "2026-10-12 00:00:00" (fun _ => false) (fun _ => .ok "")
        { index := 1, hostname := "a.example.com", username := some "root",
          password := some "pw", script_path := some "/opt/app/run.sh" }).attempts = 3 ∧
    establish_ssh_connection (fun _ => false) 3 = (none, 3) ∧
    (check_and_run_script "2026-10-12 00:00:00" (fun _ => false) (fun _ => .ok "")
        { index := 1, hostname := "a.example.com", username := some "root",
          password := some "pw", script_path := some "/opt/app/run.sh" }).record.status
      = "Connection Failed" :=
  connection_failed_budget "2026-10-12 00:00:00" (fun _ => false) (fun _ => .ok "")
    { index := 1, hostname := "a.example.com", username := some "root",
      password := some "pw", script_path := some "/opt/app/run.sh" }
    (fun _ _ => rfl)

/-- C4: for a host whose session opens, the session is closed on every exit
path (the record is produced with `closed = true` whatever the probe does),
and a failure while probing (the probe command raising) or while restarting
(the restart command raising) yields a record whose status is `"Error: "`
followed by the human-readable detail of the failure. -/
theorem error_verdict_closes_session (now : String) (connectOk : Nat → Bool)
    (remote : String → Except String String) (config : Config)
    (hconn : ∃ i, i < 3 ∧ connectOk i = true) :
    ((check_and_run_script now connectOk remote config).opened = true ∧
     (check_and_run_script now connectOk remote config).closed = true) ∧
    (∀ sp e, config.script_path = some sp →
      remote (check_command sp) = .error e →
      (check_and_run_script now connectOk remote config).record.status
        = "Error: " ++ e) ∧
    (∀ sp raw e, config.script_path = some sp →
      remote (check_command sp) = .ok raw →
      ((pyStrip raw).data.isEmpty = true ∨ pyIn sp (pyStrip raw) = false) →
      remote (restart_command sp) = .error e →
      (check_and_run_script now connectOk remote config).record.status
        = "Error: " ++ e) := by
  obtain ⟨j, m, hest⟩ := establish_succeeds connectOk hconn
  rw [check_and_run_script_opened now connectOk remote config hest]
  refine ⟨⟨rfl, rfl⟩, ?_, ?_⟩
  · intro sp e hsp hout
    rw [hsp, probe_session_check_error remote sp e hout]
  · intro sp raw e hsp hout habs hrestart
    rw [hsp, probe_session_restart_error remote sp raw e hout habs hrestart]

/-- C4 witness: a probe command that raises `Socket is closed` yields an
`Error:` record (and the session was opened and closed). -/
theorem error_verdict_closes_session_witness :
    ((check_and_run_script "t" (fun _ => true) (fun _ => .error "Socket is closed")
        { index := 1, hostname := "a.example.com", username := some "root",
          password := some "pw", script_path := some "/opt/app/run.sh" }).opened = true ∧
     (check_and_run_script "t" (fun _ => true) (fun _ => .error "Socket is closed")
        { index := 1, hostname := "a.example.com", username := some "root",
          password := some "pw", script_path := some "/opt/app/run.sh" }).closed = true) ∧
    (check_and_run_script "t" (fun _ => true) (fun _ => .error "Socket is closed")
        { index := 1, hostname := "a.example.com", username := some "root",
          password := some "pw", script_path := some "/opt/app/run.sh" }).record.status
      = "Error: " ++ "Socket is closed" :=
  have h := error_verdict_closes_session "t" (fun _ => true)
    (fun _ => .error "Socket is closed")
    { index := 1, hostname := "a.example.com", username := some "root",
      password := some "pw", script_path := some "/opt/app/run.sh" }
    ⟨0, by omega, rfl⟩
  ⟨h.1, h.2.1 "/opt/app/run.sh" "Socket is closed" rfl rfl⟩

/-- C10 (implicit): when every connection attempt for a host fails, no remote
command is issued for it and no session is opened — its only effect is the
single ConnectionFailed record — and, in general, a probe that opened no
session issues no remote command. -/
theorem no_session_no_commands (now : String) (connectOk : Nat → Bool)
    (remote : String → Except String String) (config : Config)
    (hf : ∀ i, i < 3 → connectOk i = false) :
    (check_and_run_script now connectOk remote config).commands = [] ∧
    (check_and_run_script now connectOk remote config).opened = false ∧
    (check_and_run_script now connectOk remote config).record =
      { index := config.index, status := "Connection Failed",
        last_check := now, username := config.username } ∧
    (∀ (co : Nat → Bool) (re : String → Except String String) (cf : Config),
      (check_and_run_script now co re cf).opened = false →
      (check_and_run_script now co re cf).commands = []) := by
  rw [check_and_run_script_conn_failed now connectOk remote config hf]
  refine ⟨rfl, rfl, rfl, ?_⟩
  intro co re cf hopen
  rcases h : establish_ssh_connection co 3 with ⟨s, m⟩
  cases s with
  | none => simp [check_and_run_script, h]
  | some j =>
    rw [check_and_run_script_opened now co re cf h] at hopen
    simp at hopen

/-- C10 witness: a host whose three connection attempts all fail issues no
remote command. -/
theorem no_session_no_commands_witness :
    (check_and_run_script "t" (fun _ => false) (fun _ => .ok "")
        { index := 2, hostname := "b.example.com", username := some "root",
          password := some "pw", script_path := some "/opt/app/run.sh" }).commands = [] ∧
    (check_and_run_script "t" (fun _ => false) (fun _ => .ok "")
        { index := 2, hostname := "b.example.com", username := some "root",
          password := some "pw", script_path := some "/opt/app/run.sh" }).opened = false :=
  have h := no_session_no_commands "t" (fun _ => false) (fun _ => .ok "")
    { index := 2, hostname := "b.example.com", username := some "root",
      password := some "pw", script_path := some "/opt/app/run.sh" }
    (fun _ _ => rfl)
  ⟨h.1, h.2.1⟩


/- ### Lemmas about the status store -/

theorem lookupStore_storeWrite_self (s : Store) (h : String) (r : StatusRecord) :
    lookupStore (storeWrite s h r) h = some r := by
  induction s with
  | nil => simp [storeWrite, lookupStore]
  | cons kv rest ih =>
    rcases kv with ⟨k, v⟩
    by_cases hk : k = h
    · simp [storeWrite, lookupStore, hk]
    · simp [storeWrite, lookupStore, hk, ih]

theorem lookupStore_storeWrite_ne (s : Store) (h h2 : String) (r : StatusRecord)
    (hne : h2 ≠ h) : lookupStore (storeWrite s h r) h2 = lookupStore s h2 := by
  induction s with
  | nil => simp [storeWrite, lookupStore, Ne.symm hne]
  | cons kv rest ih =>
    rcases kv with ⟨k, v⟩
    by_cases hk : k = h
    · subst hk
      simp [storeWrite, lookupStore, Ne.symm hne]
    · simp [storeWrite, lookupStore, hk, ih]

theorem lookupStore_eq_none (s : Store) (h : String) :
    lookupStore s h = none ↔ h ∉ s.map Prod.fst := by
  induction s with
  | nil => simp [lookupStore]
  | cons kv rest ih =>
    rcases kv with ⟨k, v⟩
    by_cases hk : k = h
    · simp [lookupStore, hk]
    · simp [lookupStore, hk, ih, Ne.symm hk]

theorem storeWrite_map_fst (s : Store) (h : String) (r : StatusRecord) :
    (storeWrite s h r).map Prod.fst =
      if lookupStore s h = none then s.map Prod.fst ++ [h] else s.map Prod.fst := by
  induction s with
  | nil => simp [storeWrite, lookupStore]
  | cons kv rest ih =>
    rcases kv with ⟨k, v⟩
    by_cases hk : k = h
    · simp [storeWrite, lookupStore, hk]
    · by_cases hl : lookupStore rest h = none
      · simp [storeWrite, lookupStore, hk, ih, hl]
      · simp [storeWrite, lookupStore, hk, ih, hl]

theorem storeWrite_length (s : Store) (h : String) (r : StatusRecord) :
    (storeWrite s h r).length =
      if lookupStore s h = none then s.length + 1 else s.length := by
  have hf := congrArg List.length (storeWrite_map_fst s h r)
  simpa [apply_ite List.length] using hf

/-- C6: a write into the status store replaces the record stored under that
hostname wholesale — afterwards the stored value is exactly the record that
was written — while keeping at most one record per hostname and deleting
nothing: every hostname present before the write is still present after it.
(`storeWrite` is the only mutation the source ever applies to
`vps_status`; no deletion operation exists.) -/
theorem store_write_invariants (s : Store) (h : String) (r : StatusRecord)
    (hnd : (s.map Prod.fst).Nodup) :
    lookupStore (storeWrite s h r) h = some r ∧
    ((storeWrite s h r).map Prod.fst).Nodup ∧
    (∀ k, lookupStore s k ≠ none → lookupStore (storeWrite s h r) k ≠ none) := by
  refine ⟨lookupStore_storeWrite_self s h r, ?_, ?_⟩
  · rw [storeWrite_map_fst]
    by_cases hl : lookupStore s h = none
    · rw [if_pos hl]
      have hnotin : h ∉ s.map Prod.fst := (lookupStore_eq_none s h).mp hl
      simp [List.nodup_append, hnd, hnotin]
    · rw [if_neg hl]; exact hnd
  · intro k hk
    by_cases hkh : k = h
    · subst hkh
      rw [lookupStore_storeWrite_self]
      exact Option.some_ne_none r
    · rw [lookupStore_storeWrite_ne s h k r hkh]
      exact hk

/-- C6 witness: overwriting the record of `a.example.com` in a one-record
store keeps one record and stores exactly the new record. -/
theorem store_write_invariants_witness :
    lookupStore (storeWrite
        [("a.example.com", { index := 1, status := "Running", last_check := "t0",
                             username := some "root" })]
        "a.example.com"
        { index := 1, status := "Restarted", last_check := "t1",
          username := some "root" }) "a.example.com"
      = some { index := 1, status := "Restarted", last_check := "t1",
               username := some "root" } ∧
    ((storeWrite
        [("a.example.com", { index := 1, status := "Running", last_check := "t0",
                             username := some "root" })]
        "a.example.com"
        { index := 1, status := "Restarted", last_check := "t1",
          username := some "root" }).map Prod.fst).Nodup ∧
    (∀ k, lookupStore
        [("a.example.com", { index := 1, status := "Running", last_check := "t0",
                             username := some "root" })] k ≠ none →
      lookupStore (storeWrite
        [("a.example.com", { index := 1, status := "Running", last_check := "t0",
                             username := some "root" })]
        "a.example.com"
        { index := 1, status := "Restarted", last_check := "t1",
          username := some "root" }) k ≠ none) :=
  store_write_invariants
    [("a.example.com", { index := 1, status := "Running", last_check := "t0",
                         username := some "root" })]
    "a.example.com"
    { index := 1, status := "Restarted", last_check := "t1",
      username := some "root" }
    (by simp)


/- ### Lemmas about a full reconciliation pass -/

theorem check_all_vps_snd (now : String) (connectOk : String → Nat → Bool)
    (remote : String → String → Except String String) :
    ∀ (configs : List Config) (store : Store),
      (check_all_vps now connectOk remote configs store).2 =
        configs.map (fun c =>
          check_and_run_script now (connectOk c.hostname) (remote c.hostname) c) := by
  intro configs
  induction configs with
  | nil => intro store; simp [check_all_vps]
  | cons c rest ih => intro store; simp [check_all_vps, ih]

theorem check_all_vps_lookup_of_not_mem (now : String) (connectOk : String → Nat → Bool)
    (remote : String → String → Except String String) :
    ∀ (configs : List Config) (store : Store) (h : String),
      h ∉ configs.map Config.hostname →
      lookupStore (check_all_vps now connectOk remote configs store).1 h =
        lookupStore store h := by
  intro configs
  induction configs with
  | nil => intro store h _; simp [check_all_vps]
  | cons c rest ih =>
    intro store h hmem
    simp only [List.map_cons, List.mem_cons, not_or] at hmem
    simp only [check_all_vps]
    rw [ih _ h hmem.2, lookupStore_storeWrite_ne _ _ _ _ hmem.1]

theorem check_all_vps_general (now : String) (connectOk : String → Nat → Bool)
    (remote : String → String → Except String String) :
    ∀ (configs : List Config) (store : Store),
      (configs.map Config.hostname).Nodup →
      (∀ c ∈ configs, lookupStore store c.hostname = none) →
      (check_all_vps now connectOk remote configs store).1.length
          = store.length + configs.length ∧
      (∀ c ∈ configs,
        lookupStore (check_all_vps now connectOk remote configs store).1 c.hostname
          = some (check_and_run_script now (connectOk c.hostname)
              (remote c.hostname) c).record) := by
  intro configs
  induction configs with
  | nil =>
    intro store _ _
    exact ⟨by simp [check_all_vps], by simp⟩
  | cons c rest ih =>
    intro store hnd habs
    simp only [List.map_cons, List.nodup_cons] at hnd
    obtain ⟨hcnotin, hndrest⟩ := hnd
    have habs_c : lookupStore store c.hostname = none := habs c (by simp)
    have habs2 : ∀ c2 ∈ rest,
        lookupStore (storeWrite store c.hostname
          (check_and_run_script now (connectOk c.hostname)
            (remote c.hostname) c).record) c2.hostname = none := by
      intro c2 hc2
      rw [lookupStore_storeWrite_ne]
      · exact habs c2 (List.mem_cons_of_mem _ hc2)
      · intro heq
        exact hcnotin (heq ▸ List.mem_map_of_mem Config.hostname hc2)
    obtain ⟨ihlen, ihlook⟩ := ih (storeWrite store c.hostname
      (check_and_run_script now (connectOk c.hostname)
        (remote c.hostname) c).record) hndrest habs2
    constructor
    · simp only [check_all_vps]
      rw [ihlen, storeWrite_length, if_pos habs_c]
      simp only [List.length_cons]
      omega
    · intro c2 hc2
      rcases List.mem_cons.mp hc2 with heq | hc2r
      · subst heq
        simp only [check_all_vps]
        rw [check_all_vps_lookup_of_not_mem now connectOk remote rest _ _ hcnotin]
        exact lookupStore_storeWrite_self store c2.hostname _
      · simp only [check_all_vps]
        exact ihlook c2 hc2r

theorem storeWrite_nodup (s : Store) (h : String) (r : StatusRecord)
    (hnd : (s.map Prod.fst).Nodup) :
    ((storeWrite s h r).map Prod.fst).Nodup := by
  rw [storeWrite_map_fst]
  by_cases hl : lookupStore s h = none
  · rw [if_pos hl]
    have hnotin : h ∉ s.map Prod.fst := (lookupStore_eq_none s h).mp hl
    simp [List.nodup_append, hnd, hnotin]
  · rw [if_neg hl]
    exact hnd

theorem lookupStore_storeWrite_ne_none_iff (s : Store) (h k : String)
    (r : StatusRecord) :
    lookupStore (storeWrite s k r) h ≠ none ↔
      (h = k ∨ lookupStore s h ≠ none) := by
  by_cases hk : h = k
  · subst hk
    rw [lookupStore_storeWrite_self]
    simp
  · rw [lookupStore_storeWrite_ne s k h r hk]
    simp [hk]

theorem check_all_vps_mem_iff (now : String) (connectOk : String → Nat → Bool)
    (remote : String → String → Except String String) :
    ∀ (configs : List Config) (store : Store) (h : String),
      lookupStore (check_all_vps now connectOk remote configs store).1 h ≠ none ↔
        (lookupStore store h ≠ none ∨ h ∈ configs.map Config.hostname) := by
  intro configs
  induction configs with
  | nil => intro store h; simp [check_all_vps]
  | cons c rest ih =>
    intro store h
    simp only [check_all_vps]
    rw [ih, lookupStore_storeWrite_ne_none_iff]
    simp only [List.map_cons, List.mem_cons]
    tauto

theorem check_all_vps_nodup (now : String) (connectOk : String → Nat → Bool)
    (remote : String → String → Except String String) :
    ∀ (configs : List Config) (store : Store),
      (store.map Prod.fst).Nodup →
      ((check_all_vps now connectOk remote configs store).1.map Prod.fst).Nodup := by
  intro configs
  induction configs with
  | nil => intro store hnd; simpa [check_all_vps] using hnd
  | cons c rest ih =>
    intro store hnd
    simp only [check_all_vps]
    exact ih _ (storeWrite_nodup store c.hostname _ hnd)

theorem check_all_vps_length_dedup (now : String) (connectOk : String → Nat → Bool)
    (remote : String → String → Except String String) (configs : List Config) :
    (check_all_vps now connectOk remote configs []).1.length =
      (configs.map Config.hostname).dedup.length := by
  have hnd : (((check_all_vps now connectOk remote configs []).1).map Prod.fst).Nodup :=
    check_all_vps_nodup now connectOk remote configs [] (by simp)
  have hmem : ∀ h, h ∈ ((check_all_vps now connectOk remote configs []).1).map Prod.fst ↔
      h ∈ configs.map Config.hostname := by
    intro h
    have h1 := check_all_vps_mem_iff now connectOk remote configs [] h
    constructor
    · intro hh
      have hne : lookupStore (check_all_vps now connectOk remote configs []).1 h ≠ none := by
        rw [Ne, lookupStore_eq_none]
        exact fun hcon => hcon hh
      rcases h1.mp hne with hfalse | hmem2
      · exact absurd rfl hfalse
      · exact hmem2
    · intro hh
      have hne := h1.mpr (Or.inr hh)
      rw [Ne, lookupStore_eq_none] at hne
      exact not_not.mp hne
  have hfin : (((check_all_vps now connectOk remote configs []).1).map Prod.fst).toFinset =
      (configs.map Config.hostname).toFinset :=
    Finset.ext fun a => by simp only [List.mem_toFinset]; exact hmem a
  calc (check_all_vps now connectOk remote configs []).1.length
      = (((check_all_vps now connectOk remote configs []).1).map Prod.fst).length :=
        (List.length_map _ _).symm
    _ = (((check_all_vps now connectOk remote configs []).1).map Prod.fst).dedup.length := by
        rw [List.Nodup.dedup hnd]
    _ = (((check_all_vps now connectOk remote configs []).1).map Prod.fst).toFinset.card :=
        (List.card_toFinset _).symm
    _ = (configs.map Config.hostname).toFinset.card := by rw [hfin]
    _ = (configs.map Config.hostname).dedup.length := List.card_toFinset _

/-- C5 counterexample: a configuration of 2 hosts sharing the hostname
`a.example.com` (both unreachable): the pass produces a store with 1 record,
not one record per configured host. -/
theorem pass_record_count_counterexample :
    ((check_all_vps "t" (fun _ _ => false) (fun _ _ => .ok "")
        [{ index := 1, hostname := "a.example.com", username := some "root",
           password := some "pw", script_path := some "/opt/app/run.sh" },
         { index := 2, hostname := "a.example.com", username := some "root",
           password := some "pw", script_path := some "/opt/app/run.sh" }] []).1).length
      = 1 ∧
    ([{ index := 1, hostname := "a.example.com", username := some "root",
        password := some "pw", script_path := some "/opt/app/run.sh" },
      { index := 2, hostname := "a.example.com", username := some "root",
        password := some "pw", script_path := some "/opt/app/run.sh" }] : List Config).length
      = 2 :=
  ⟨rfl, rfl⟩

/-- C5 amended: for every configuration, the pass attempts every configured
host — its per-host results are exactly the independent per-host map over
the configuration, one result per configured host, so no host's failure
aborts the pass or affects another host's processing — and, starting from
an empty store, it leaves exactly one record per distinct configured
hostname: every configured hostname has a record, the store's keys hold no
duplicates, and the record count equals the number of distinct hostnames;
when the configured hostnames are pairwise distinct this is exactly `n`
records, each host's record retrievable under its hostname. -/
theorem pass_attempts_all_hosts (now : String) (connectOk : String → Nat → Bool)
    (remote : String → String → Except String String) (configs : List Config) :
    (check_all_vps now connectOk remote configs []).2 =
      configs.map (fun c =>
        check_and_run_script now (connectOk c.hostname) (remote c.hostname) c) ∧
    (∀ c ∈ configs,
      lookupStore (check_all_vps now connectOk remote configs []).1 c.hostname ≠ none) ∧
    ((check_all_vps now connectOk remote configs []).1.map Prod.fst).Nodup ∧
    (check_all_vps now connectOk remote configs []).1.length =
      (configs.map Config.hostname).dedup.length ∧
    ((configs.map Config.hostname).Nodup →
      (check_all_vps now connectOk remote configs []).1.length = configs.length ∧
      ∀ c ∈ configs,
        lookupStore (check_all_vps now connectOk remote configs []).1 c.hostname =
          some (check_and_run_script now (connectOk c.hostname)
            (remote c.hostname) c).record) := by
  refine ⟨check_all_vps_snd now connectOk remote configs [], ?_, ?_, ?_, ?_⟩
  · intro c hc
    rw [check_all_vps_mem_iff]
    exact Or.inr (List.mem_map_of_mem Config.hostname hc)
  · exact check_all_vps_nodup now connectOk remote configs [] (by simp)
  · exact check_all_vps_length_dedup now connectOk remote configs
  · intro hnd
    obtain ⟨hlen, hlook⟩ := check_all_vps_general now connectOk remote configs []
      hnd (by intro c _; simp [lookupStore])
    exact ⟨by simpa using hlen, hlook⟩

/-- C5 witness: the amended theorem applied to the duplicate-hostname
configuration itself — 2 configured hosts sharing one hostname: both hosts
are attempted (2 per-host results) while the store ends with as many
records as distinct hostnames, here 1. -/
theorem pass_attempts_all_hosts_witness :
    (check_all_vps "t" (fun _ _ => false) (fun _ _ => .ok "")
        [{ index := 1, hostname := "a.example.com", username := some "root",
           password := some "pw", script_path := some "/opt/app/run.sh" },
         { index := 2, hostname := "a.example.com", username := some "root",
           password := some "pw", script_path := some "/opt/app/run.sh" }] []).1.length
      = ([{ index := 1, hostname := "a.example.com", username := some "root",
            password := some "pw", script_path := some "/opt/app/run.sh" },
          { index := 2, hostname := "a.example.com", username := some "root",
            password := some "pw", script_path := some "/opt/app/run.sh" }].map
            Config.hostname).dedup.length ∧
    ([{ index := 1, hostname := "a.example.com", username := some "root",
        password := some "pw", script_path := some "/opt/app/run.sh" },
      { index := 2, hostname := "a.example.com", username := some "root",
        password := some "pw", script_path := some "/opt/app/run.sh" }].map
        (Config.hostname)).dedup.length = 1 ∧
    (check_all_vps "t" (fun _ _ => false) (fun _ _ => .ok "")
        [{ index := 1, hostname := "a.example.com", username := some "root",
           password := some "pw", script_path := some "/opt/app/run.sh" },
         { index := 2, hostname := "a.example.com", username := some "root",
           password := some "pw", script_path := some "/opt/app/run.sh" }] []).2.length
      = 2 :=
  have h := pass_attempts_all_hosts "t" (fun _ _ => false) (fun _ _ => .ok "")
    [{ index := 1, hostname := "a.example.com", username := some "root",
       password := some "pw", script_path := some "/opt/app/run.sh" },
     { index := 2, hostname := "a.example.com", username := some "root",
       password := some "pw", script_path := some "/opt/app/run.sh" }]
  ⟨h.2.2.2.1, by rfl, by rw [h.1]; rfl⟩


/- ### Lemmas about the scheduler loop -/

theorem loopRun_closed (n : Nat) :
    loopRun n = { time := 60 * n, heartbeat_count := n,
                  next_run := 3600 * max 1 ((n + 59) / 60) } := by
  induction n with
  | zero => rfl
  | succ n ih =>
    show (loopStep (loopRun n)).1 = _
    rw [ih]
    simp only [loopStep, LoopState.mk.injEq]
    refine ⟨by omega, by trivial, ?_⟩
    by_cases hfire : 3600 * max 1 ((n + 59) / 60) ≤ 60 * n
    · rw [if_pos (by simpa using hfire)]
      omega
    · rw [if_neg (by simpa using hfire)]
      omega

theorem heartbeatAfter_iff (k : Nat) :
    heartbeatAfter k = true ↔ (k + 1) % 5 = 0 := by
  rw [heartbeatAfter, loopRun_closed]
  simp [loopStep]

theorem passFiredAfter_iff (k : Nat) :
    passFiredAfter k = true ↔ (60 ≤ k ∧ k % 60 = 0) := by
  rw [passFiredAfter, loopRun_closed]
  simp only [loopStep, decide_eq_true_eq]
  omega

/-- C7: the event trace of `main` opens with the synchronous startup pass
before any tick; in the loop, the heartbeat counter after `n` one-minute
ticks is exactly `n`; a heartbeat is logged exactly on every 5th tick; and
the hourly job fires exactly at each full hour of ticks — the iteration
after `k` completed one-minute ticks triggers a full pass precisely when
`k` is a positive multiple of 60, i.e. once per fixed 1-hour period. -/
theorem scheduler_behavior :
    main_events 0 = [MainEvent.fullPass] ∧
    (∀ n, (loopRun n).heartbeat_count = n) ∧
    (∀ k, heartbeatAfter k = true ↔ (k + 1) % 5 = 0) ∧
    (∀ k, passFiredAfter k = true ↔ (60 ≤ k ∧ k % 60 = 0)) := by
  refine ⟨rfl, ?_, heartbeatAfter_iff, passFiredAfter_iff⟩
  intro n
  rw [loopRun_closed]

/- ### Discovery: stopping condition -/

theorem get_vps_configs_from_eq (env : Env) :
    ∀ (k start fuel : Nat),
      (∀ i, start ≤ i → i < start + k → truthy (env.hostname i) = true) →
      truthy (env.hostname (start + k)) = false →
      k ≤ fuel →
      get_vps_configs_from env start fuel =
        (List.range k).map (fun j => entryAt env (start + j)) := by
  intro k
  induction k with
  | zero =>
    intro start fuel _ hgap _
    rw [Nat.add_zero] at hgap
    cases fuel with
    | zero => simp [get_vps_configs_from]
    | succ f =>
      simp only [get_vps_configs_from]
      cases henv : env.hostname start with
      | none => simp
      | some hn =>
        rw [henv] at hgap
        simp only [truthy, Bool.not_eq_false'] at hgap
        simp [hgap]
  | succ k ih =>
    intro start fuel hall hgap hfuel
    obtain ⟨f, rfl⟩ : ∃ f, fuel = f + 1 := ⟨fuel - 1, by omega⟩
    have hstart : truthy (env.hostname start) = true := hall start le_rfl (by omega)
    cases henv : env.hostname start with
    | none => rw [henv] at hstart; simp [truthy] at hstart
    | some hn =>
      rw [henv] at hstart
      simp only [truthy, Bool.not_eq_true'] at hstart
      have ihres := ih (start + 1) f
        (fun i h1 h2 => hall i (by omega) (by omega))
        (by have h60 : start + 1 + k = start + (k + 1) := by omega
            rw [h60]; exact hgap)
        (by omega)
      simp only [get_vps_configs_from, henv, hstart, Bool.false_eq_true, if_false, ihres]
      rw [List.range_succ_eq_map, List.map_cons, List.map_map]
      have harith : ∀ j, start + 1 + j = start + (j + 1) := fun j => by omega
      simp only [List.cons.injEq]
      refine ⟨?_, ?_⟩
      · simp [entryAt, henv]
      · apply List.map_congr_left
        intro j _
        simp only [Function.comp_apply]
        rw [harith j]

/-- C9 counterexample: `HOSTNAME_1` is present but empty and `HOSTNAME_2` is
present and non-empty, yet discovery loads no entries: the loop stops at a
present-but-empty hostname variable, not only at an absent one. -/
theorem discovery_counterexample :
    get_vps_configs
      { hostname := fun i => if i = 1 then some "" else
          if i = 2 then some "b.example.com" else none,
        username := fun _ => some "root", password := fun _ => some "pw",
        scriptPath := fun _ => some "/opt/app/run.sh" } 10 = [] ∧
    ({ hostname := fun i => if i = 1 then some "" else
          if i = 2 then some "b.example.com" else none,
       username := fun _ => some "root", password := fun _ => some "pw",
       scriptPath := fun _ => some "/opt/app/run.sh" } : Env).hostname 1 ≠ none ∧
    ({ hostname := fun i => if i = 1 then some "" else
          if i = 2 then some "b.example.com" else none,
       username := fun _ => some "root", password := fun _ => some "pw",
       scriptPath := fun _ => some "/opt/app/run.sh" } : Env).hostname 2 ≠ none := by
  refine ⟨rfl, by simp, by simp⟩

/-- C9 amended: discovery stops at the first suffix whose hostname variable
is absent or empty (Python-falsy), loading exactly the entries at suffixes
1..k in order; each loaded entry's `index` field equals its 1-based
ordinal (`entryAt env (j + 1)` has `index = j + 1`). -/
theorem discovery_stops_at_falsy (env : Env) (k fuel : Nat)
    (hall : ∀ i, 1 ≤ i → i ≤ k → truthy (env.hostname i) = true)
    (hgap : truthy (env.hostname (k + 1)) = false)
    (hfuel : k ≤ fuel) :
    get_vps_configs env fuel = (List.range k).map (fun j => entryAt env (j + 1)) := by
  have hmain := get_vps_configs_from_eq env k 1 fuel
    (fun i h1 h2 => hall i h1 (by omega))
    (by have h1k : 1 + k = k + 1 := by omega
        rw [h1k]; exact hgap)
    hfuel
  rw [get_vps_configs, hmain]
  apply List.map_congr_left
  intro j _
  have : 1 + j = j + 1 := by omega
  rw [this]

/-- C9 witness: two configured suffixes then a gap load exactly the two
ordinally-indexed entries. -/
theorem discovery_stops_at_falsy_witness :
    get_vps_configs envTwoHosts 5 =
      (List.range 2).map (fun j => entryAt envTwoHosts (j + 1)) :=
  discovery_stops_at_falsy envTwoHosts 2 5
    (by intro i h1 h2
        interval_cases i <;> rfl)
    rfl
    (by omega)


end VpsMonitor
